import Mathlib

/-!
Shallow embedding of `game.py`, a minimal breakout-style arcade game.

Coordinates are modelled as rationals (`ℚ`): the Python code only ever
adds, subtracts, halves and compares coordinates, so exact arithmetic is
faithful.  Direction components, hit points and lives are integers.
Python code that can raise (`KeyError` from the `Brick.COLORS` lookup,
`TypeError` from arithmetic on a `None` speed) is modelled with `Option`:
`none` is the raised exception.

Canvas side effects are made explicit: each game object carries the
coordinates of its canvas item (`canvas.coords`), bricks carry their fill
color and a `deleted` flag (`canvas.delete` removal), and a game-loop tick
returns the list of texts drawn with `draw_text` together with the delay
passed to `self.after` for the re-scheduled loop, if any.
-/

namespace Breakout

/-- A canvas bounding box, as the four numbers returned by
`canvas.coords(item)`: `position[0], position[1], position[2], position[3]`
are `left, top, right, bottom`. -/
structure Coords where
  left : ℚ
  top : ℚ
  right : ℚ
  bottom : ℚ
  deriving DecidableEq, Repr

/-- `canvas.move(item, x, y)`: translate a bounding box. -/
def Coords.move (c : Coords) (x y : ℚ) : Coords :=
  { left := c.left + x, top := c.top + y,
    right := c.right + x, bottom := c.bottom + y }

/-- `canvas.find_overlapping`: bounding boxes overlap (closed overlap,
touching boxes count). -/
def overlaps (a b : Coords) : Bool :=
  decide (a.left ≤ b.right) && decide (b.left ≤ a.right) &&
  decide (a.top ≤ b.bottom) && decide (b.top ≤ a.bottom)

/-- `Ball`: `radius`, a two-component `direction`, a `speed` that the game
loop may set to `None`, and the oval's canvas coordinates. -/
structure Ball where
  radius : ℚ
  direction : Int × Int
  speed : Option ℚ
  pos : Coords
  deriving DecidableEq, Repr

/-- `Ball.__init__(canvas, x, y)`: radius 10, direction `[1, -1]`,
speed 10, oval from `(x - r, y - r)` to `(x + r, y + r)`. -/
def Ball.init (x y : ℚ) : Ball :=
  { radius := 10
    direction := (1, -1)
    speed := some 10
    pos := { left := x - 10, top := y - 10, right := x + 10, bottom := y + 10 } }

/-- `GameObject.move` applied to the ball's oval. -/
def Ball.move (b : Ball) (x y : ℚ) : Ball :=
  { b with pos := b.pos.move x y }

/-- `Ball.update(self)`.  `width` stands for `self.canvas.winfo_width()`.
Returns `none` when `speed` is `None` (Python would raise `TypeError`
computing `direction * None`). -/
def Ball.update (width : ℚ) (b : Ball) : Option Ball :=
  match b.speed with
  | none => none
  | some speed =>
    let position := b.pos
    let d0 : Int := if position.left ≤ 0 ∨ position.right ≥ width
                    then -b.direction.1 else b.direction.1
    let d1 : Int := if position.top ≤ 0 then -b.direction.2 else b.direction.2
    let x : ℚ := (d0 : ℚ) * speed
    let y : ℚ := (d1 : ℚ) * speed
    some (({ b with direction := (d0, d1) } : Ball).move x y)

/-- `Brick.COLORS = {1: '#999999', 2: '#555555', 3: '#222222'}`;
`none` is the `KeyError` for any other key. -/
def COLORS (hits : Int) : Option String :=
  if hits = 1 then some "#999999"
  else if hits = 2 then some "#555555"
  else if hits = 3 then some "#222222"
  else none

/-- `Brick`: rectangle coordinates, hit-point counter, current fill
color, and whether `canvas.delete` has removed it from the canvas. -/
structure Brick where
  pos : Coords
  hits : Int
  color : String
  deleted : Bool
  deriving DecidableEq, Repr

/-- `Brick.__init__(canvas, x, y, hits)`: width 75, height 20, the fill
color looked up in `Brick.COLORS[hits]` (`none` on `KeyError`). -/
def Brick.init (x y : ℚ) (hits : Int) : Option Brick :=
  (COLORS hits).map fun color =>
    { pos := { left := x - 75 / 2, top := y - 20 / 2,
               right := x + 75 / 2, bottom := y + 20 / 2 }
      hits := hits
      color := color
      deleted := false }

/-- `Brick.hit(self)`: decrement `hits`; delete the brick at zero,
otherwise recolor with `Brick.COLORS[self.hits]` (`none` on `KeyError`). -/
def Brick.hit (b : Brick) : Option Brick :=
  let hits := b.hits - 1
  if hits = 0 then some { b with hits := hits, deleted := true }
  else (COLORS hits).map fun color => { b with hits := hits, color := color }

/-- `Paddle`: rectangle coordinates and the optionally attached ball
(`self.ball`). -/
structure Paddle where
  pos : Coords
  ball : Option Ball
  deriving DecidableEq, Repr

/-- `Paddle.__init__(canvas, x, y)`: width 80, height 10, no ball. -/
def Paddle.init (x y : ℚ) : Paddle :=
  { pos := { left := x - 80 / 2, top := y - 10 / 2,
             right := x + 80 / 2, bottom := y + 10 / 2 }
    ball := none }

/-- `Paddle.slide(self, offset)`.  `width` stands for
`self.canvas.winfo_width()`.  The paddle rectangle moves only when the
shifted box stays inside `[0, width]`; the attached ball, when present,
is moved unconditionally. -/
def Paddle.slide (width offset : ℚ) (p : Paddle) : Paddle :=
  let coordinates := p.pos
  let p1 := if coordinates.left + offset ≥ 0 ∧ coordinates.right + offset ≤ width
            then { p with pos := p.pos.move offset 0 } else p
  match p1.ball with
  | none => p1
  | some b => { p1 with ball := some (b.move offset 0) }

/-- Repeated `Paddle.slide` calls (one per arrow-key event). -/
def Paddle.slideAll (width : ℚ) (offsets : List ℚ) (p : Paddle) : Paddle :=
  offsets.foldl (fun q offset => Paddle.slide width offset q) p

/-- The paddle rectangle lies within the horizontal canvas bounds. -/
@[reducible] def Paddle.inBounds (width : ℚ) (p : Paddle) : Prop :=
  0 ≤ p.pos.left ∧ p.pos.right ≤ width

/-- A game object handed to `Ball.collide`: `self.items` maps canvas ids
to the paddle and the bricks (the ball and the text items are never in
`self.items`). -/
inductive GameObj where
  | paddleObj (p : Paddle)
  | brickObj (b : Brick)
  deriving DecidableEq, Repr

/-- `GameObject.get_position` on a collided object. -/
def GameObj.get_position : GameObj → Coords
  | .paddleObj p => p.pos
  | .brickObj b => b.pos

/-- One iteration of the loop at the end of `Ball.collide`:
`if isinstance(game_object, Brick): game_object.hit()`. -/
def GameObj.hitIfBrick : GameObj → Option GameObj
  | .paddleObj p => some (.paddleObj p)
  | .brickObj b => (b.hit).map .brickObj

/-- The `for game_object in game_objects` loop of `Ball.collide`:
every brick is hit exactly once, in list order; `none` propagates the
first `KeyError`. -/
def hitAll : List GameObj → Option (List GameObj)
  | [] => some []
  | o :: rest =>
    o.hitIfBrick.bind fun o' => (hitAll rest).map fun rest' => o' :: rest'

/-- The direction computation of `Ball.collide(self, game_objects)`:
`x` is the ball's horizontal center `(position[0] + position[2]) * 0.5`. -/
def collideDirection (ballPos : Coords) (d : Int × Int)
    (game_objects : List GameObj) : Int × Int :=
  let x := (ballPos.left + ballPos.right) * (1 / 2)
  if game_objects.length > 1 then (d.1, -d.2)
  else
    match game_objects with
    | [game_object] =>
      let obj_pos := game_object.get_position
      if x > obj_pos.right then (1, d.2)
      else if x < obj_pos.left then (-1, d.2)
      else (d.1, -d.2)
    | _ => d

/-- `Ball.collide(self, game_objects)`: update the direction, then hit
every brick in the list once. -/
def Ball.collide (b : Ball) (game_objects : List GameObj) :
    Option (Ball × List GameObj) :=
  (hitAll game_objects).map fun objs =>
    ({ b with direction := collideDirection b.pos b.direction game_objects },
     objs)

/-- The whole game state: `self.lives`, the canvas dimensions, the ball,
the paddle and the bricks created by `add_brick`.  (`self.items` keeps
the paddle and all bricks; deleted bricks stay in the dict but are gone
from the canvas, so `find_overlapping` and `find_withtag` skip them.) -/
structure GameState where
  lives : Int
  width : ℚ
  height : ℚ
  ball : Ball
  paddle : Paddle
  bricks : List Brick
  deriving DecidableEq, Repr

/-- `self.canvas.find_withtag('brick')`: bricks still on the canvas. -/
def GameState.liveBricks (g : GameState) : List Brick :=
  g.bricks.filter fun b => !b.deleted

/-- `check_collisions`' object list: canvas items overlapping the ball
that are in `self.items` — the paddle (created first, so first in canvas
stacking order) and the live bricks, in creation order. -/
def GameState.overlappingObjects (g : GameState) : List GameObj :=
  let ball_pos := g.ball.pos
  (if overlaps g.paddle.pos ball_pos then [GameObj.paddleObj g.paddle] else [])
  ++ ((g.liveBricks.filter fun b => overlaps b.pos ball_pos).map GameObj.brickObj)

/-- `Game.check_collisions(self)`: gather the overlapping objects and run
`self.ball.collide` on them.  The in-place mutation of the shared brick
objects is written back into the brick list: each live brick overlapping
the ball is hit once, the others are untouched. -/
def GameState.check_collisions (g : GameState) : Option GameState :=
  let ball_pos := g.ball.pos
  let objects := g.overlappingObjects
  let direction := collideDirection ball_pos g.ball.direction objects
  (g.bricks.mapM fun b =>
      if !b.deleted && overlaps b.pos ball_pos then b.hit else some b).map
    fun bricks =>
      { g with ball := { g.ball with direction := direction }, bricks := bricks }

/-- The observable effects of one `game_loop` tick: the texts drawn with
`draw_text` and the delay passed to `self.after` when the loop
re-schedules itself (`none` when it does not). -/
structure TickEffects where
  texts : List String
  scheduled : Option Nat
  deriving DecidableEq, Repr

/-- `Game.add_ball(self)`: a fresh ball at the paddle's horizontal
center, `y = 310`, attached to the paddle (`self.paddle.set_ball`);
the previous ball is deleted. -/
def GameState.add_ball (g : GameState) : GameState :=
  let paddle_pos := g.paddle.pos
  let x := (paddle_pos.left + paddle_pos.right) * (1 / 2)
  let ball := Ball.init x 310
  { g with ball := ball, paddle := { g.paddle with ball := some ball } }

/-- `Game.setup_game(self)`: add a ball, refresh the lives HUD (an
`itemconfig`, not a new text, once the HUD exists) and draw
`'Press Space to start'`.  No `game_loop` re-schedule. -/
def GameState.setup_game (g : GameState) : GameState × TickEffects :=
  (g.add_ball, { texts := ["Press Space to start"], scheduled := none })

/-- `Game.game_loop(self)`: check collisions, then branch on the brick
count and the ball's bottom edge; only the final branch updates the ball
and re-schedules the loop with `self.after(50, self.game_loop)`.
(In the lost-ball branch `self.after(1000, self.setup_game())` calls
`setup_game` immediately and schedules its `None` result, so no
`game_loop` re-schedule happens there either.) -/
def GameState.game_loop (gs : GameState) : Option (GameState × TickEffects) :=
  gs.check_collisions.bind fun g =>
    let num_bricks := g.liveBricks.length
    if num_bricks = 0 then
      some ({ g with ball := { g.ball with speed := none } },
            { texts := ["You win!"], scheduled := none })
    else if g.ball.pos.bottom ≥ g.height then
      let g1 := { g with ball := { g.ball with speed := none }, lives := g.lives - 1 }
      if g1.lives ≤ 0 then
        some (g1, { texts := ["Game Over"], scheduled := none })
      else
        some g1.setup_game
    else
      (g.ball.update g.width).map fun ball =>
        ({ g with ball := ball }, { texts := [], scheduled := some 50 })

/-- `self.lives = 3` in `Game.__init__`. -/
def initialLives : Int := 3

/-- The brick grid of `Game.__init__`: `for x in range(5, 595, 75)`
(eight iterations), bricks at `x + 37.5` with 3, 2, 1 hit points at
`y = 50, 70, 90`. -/
def brickGrid : List (ℚ × ℚ × Int) :=
  (List.range 8).flatMap fun i =>
    let x : ℚ := 5 + 75 * i + 75 / 2
    [(x, 50, 3), (x, 70, 2), (x, 90, 1)]

/-- `Game.__init__` followed by `setup_game`: three lives, a 600 × 400
canvas, the paddle at `(width / 2, 326)`, the brick grid, and a fresh
ball attached to the paddle by `add_ball`.  (`self.ball` is `None` until
`add_ball` runs, so the state is only formed after it.) -/
def GameState.init : Option GameState :=
  let width : ℚ := 600
  let height : ℚ := 400
  let paddle := Paddle.init (width / 2) 326
  (brickGrid.mapM fun t => Brick.init t.1 t.2.1 t.2.2).map fun bricks =>
    ({ lives := initialLives, width := width, height := height,
       ball := Ball.init 0 0, paddle := paddle, bricks := bricks } : GameState).add_ball

/-- Both components of a direction vector are `1` or `-1`. -/
@[reducible] def dirOK (d : Int × Int) : Prop :=
  (d.1 = 1 ∨ d.1 = -1) ∧ (d.2 = 1 ∨ d.2 = -1)

/-- Concrete brick near the top-left corner, away from the sample balls. -/
def brickFar : Brick := Brick.mk ⟨62, 40, 137, 60⟩ 3 "#222222" false

/-- Concrete two-hit brick whose horizontal span contains `x = 300`. -/
def brickMid : Brick := Brick.mk ⟨262, 190, 337, 210⟩ 2 "#555555" false

/-- Concrete paddle resting at the bottom of the canvas, no ball. -/
def paddleW : Paddle := Paddle.mk ⟨260, 321, 340, 331⟩ none

/-- Concrete ball in mid-screen, away from paddle and bricks. -/
def ballTick : Ball := Ball.mk 10 (1, -1) (some 10) ⟨290, 190, 310, 210⟩

/-- Concrete ball whose bottom edge has passed the canvas height. -/
def ballLost : Ball := Ball.mk 10 (1, -1) (some 10) ⟨290, 385, 310, 405⟩

/-- Concrete ball far below the canvas. -/
def ballDead : Ball := Ball.mk 10 (1, -1) (some 10) ⟨290, 490, 310, 510⟩

/-- Concrete mid-air state: one live brick, ball far from everything. -/
def gTick : GameState := GameState.mk 3 600 400 ballTick paddleW [brickFar]

/-- Concrete lost-ball state: the ball's bottom edge is below the canvas. -/
def gLost : GameState := GameState.mk 3 600 400 ballLost paddleW [brickFar]

/-- Concrete winning state: no bricks left, and the ball is also lost. -/
def gWin : GameState := GameState.mk 3 600 400 ballDead paddleW []

/-! ## Helper lemmas -/

/-- `Brick.hit` on a brick with a valid hit count succeeds and decrements
the count. -/
theorem Brick.hit_valid (b : Brick) (hv : b.hits = 1 ∨ b.hits = 2 ∨ b.hits = 3) :
    ∃ b', b.hit = some b' ∧ b'.hits = b.hits - 1 := by
  rcases hv with h | h | h <;> simp [Brick.hit, COLORS, h]

/-- The paddle rectangle after `slide`: moved by the offset exactly when
the shifted box stays inside the canvas. -/
theorem Paddle.slide_pos (width offset : ℚ) (p : Paddle) :
    (Paddle.slide width offset p).pos =
      if p.pos.left + offset ≥ 0 ∧ p.pos.right + offset ≤ width
      then p.pos.move offset 0 else p.pos := by
  by_cases hc : p.pos.left + offset ≥ 0 ∧ p.pos.right + offset ≤ width <;>
    cases hb : p.ball <;> simp [Paddle.slide, hc, hb]

/-- The attached ball after `slide`: moved by the offset unconditionally. -/
theorem Paddle.slide_ball (width offset : ℚ) (p : Paddle) :
    (Paddle.slide width offset p).ball = p.ball.map fun b => b.move offset 0 := by
  by_cases hc : p.pos.left + offset ≥ 0 ∧ p.pos.right + offset ≤ width <;>
    cases hb : p.ball <;> simp [Paddle.slide, hc, hb]

/-- One `slide` keeps an in-bounds paddle in bounds. -/
theorem Paddle.slide_inBounds (width offset : ℚ) (p : Paddle)
    (h : p.inBounds width) : (Paddle.slide width offset p).inBounds width := by
  rw [Paddle.inBounds, Paddle.slide_pos]
  split
  · next hc => exact ⟨hc.1, hc.2⟩
  · exact h

/-! ## Claim theorems -/

/-- C2: each call to `Brick.hit` decrements the hit-point counter by
exactly one; the brick is removed from the canvas exactly when the
counter reaches zero, and when the counter is still positive the brick
remains on the canvas with its fill color changed to the color for the
new count. -/
theorem brick_hit_spec (b : Brick)
    (hv : b.hits = 1 ∨ b.hits = 2 ∨ b.hits = 3) (hd : b.deleted = false) :
    ∃ b', b.hit = some b' ∧
      b'.hits = b.hits - 1 ∧
      (b'.deleted = true ↔ b.hits - 1 = 0) ∧
      (0 < b.hits - 1 → b'.deleted = false ∧ some b'.color = COLORS (b.hits - 1)) := by
  rcases hv with h | h | h <;> simp [Brick.hit, COLORS, h, hd]

/-- C2 witness: a two-hit brick is hit down to one hit point, stays on
the canvas and turns light gray. -/
theorem brick_hit_spec_witness :
    ∃ b', (Brick.mk ⟨100, 40, 175, 60⟩ 2 "#555555" false).hit = some b' ∧
      b'.hits = 2 - 1 ∧
      (b'.deleted = true ↔ (2 : Int) - 1 = 0) ∧
      (0 < (2 : Int) - 1 → b'.deleted = false ∧ some b'.color = COLORS (2 - 1)) :=
  brick_hit_spec (Brick.mk ⟨100, 40, 175, 60⟩ 2 "#555555" false)
    (Or.inr (Or.inl rfl)) rfl

/-- C3: `Ball.update` negates the x direction exactly when the ball's
left edge is `≤ 0` or its right edge is `≥` the canvas width, negates
the y direction exactly when the top edge is `≤ 0` (no bounce off the
bottom edge), and then translates the ball by the possibly-flipped
direction times the speed. -/
theorem ball_update_spec (width : ℚ) (b : Ball) (s : ℚ) (hs : b.speed = some s) :
    ∃ b', b.update width = some b' ∧
      b'.direction.1 = (if b.pos.left ≤ 0 ∨ b.pos.right ≥ width
                        then -b.direction.1 else b.direction.1) ∧
      b'.direction.2 = (if b.pos.top ≤ 0 then -b.direction.2 else b.direction.2) ∧
      b'.pos = b.pos.move ((b'.direction.1 : ℚ) * s) ((b'.direction.2 : ℚ) * s) := by
  simp [Ball.update, hs, Ball.move]

/-- C3 witness: a ball in mid-screen keeps its direction and moves by
`direction * speed`. -/
theorem ball_update_spec_witness :
    ∃ b', (Ball.init 300 200).update 600 = some b' ∧
      b'.direction.1 = (if (Ball.init 300 200).pos.left ≤ 0 ∨
                           (Ball.init 300 200).pos.right ≥ 600
                        then -(Ball.init 300 200).direction.1
                        else (Ball.init 300 200).direction.1) ∧
      b'.direction.2 = (if (Ball.init 300 200).pos.top ≤ 0
                        then -(Ball.init 300 200).direction.2
                        else (Ball.init 300 200).direction.2) ∧
      b'.pos = (Ball.init 300 200).pos.move ((b'.direction.1 : ℚ) * 10)
                 ((b'.direction.2 : ℚ) * 10) :=
  ball_update_spec 600 (Ball.init 300 200) 10 rfl

/-- C7: `Paddle.slide` never changes the paddle's y coordinates, moves
the paddle by the offset exactly when the shifted box stays inside
`[0, width]`, and hence a paddle starting within the canvas bounds stays
within them after any sequence of slides. -/
theorem paddle_slide_spec (width : ℚ) :
    (∀ offset p, (Paddle.slide width offset p).pos.top = p.pos.top ∧
                 (Paddle.slide width offset p).pos.bottom = p.pos.bottom) ∧
    (∀ offset p,
      (p.pos.left + offset ≥ 0 ∧ p.pos.right + offset ≤ width →
        (Paddle.slide width offset p).pos = p.pos.move offset 0) ∧
      (¬ (p.pos.left + offset ≥ 0 ∧ p.pos.right + offset ≤ width) →
        (Paddle.slide width offset p).pos = p.pos)) ∧
    (∀ offsets p, Paddle.inBounds width p →
      Paddle.inBounds width (Paddle.slideAll width offsets p)) := by
  refine ⟨?_, ?_, ?_⟩
  · intro offset p
    rw [Paddle.slide_pos]
    split <;> simp [Coords.move]
  · intro offset p
    constructor <;> intro hc <;> rw [Paddle.slide_pos]
    · rw [if_pos hc]
    · rw [if_neg hc]
  · intro offsets
    induction offsets with
    | nil => intro p h; exact h
    | cons o rest ih =>
      intro p h
      exact ih _ (Paddle.slide_inBounds width o p h)

/-- C7 witness: a paddle starting in bounds is still in bounds after a
sequence of slides, one of which would leave the canvas. -/
theorem paddle_slide_spec_witness :
    Paddle.inBounds 600 (Paddle.slideAll 600 [10, -500, 40] (Paddle.init 300 326)) :=
  (paddle_slide_spec 600).2.2 [10, -500, 40] (Paddle.init 300 326) (by constructor <;> norm_num [Paddle.init])

/-- C9: while a ball is attached, `Paddle.slide` translates the ball by
the offset unconditionally — even when the paddle itself does not move
because the offset would take it out of bounds. -/
theorem paddle_slide_ball_spec (width offset : ℚ) (p : Paddle) (b : Ball)
    (hb : p.ball = some b) :
    (Paddle.slide width offset p).ball = some (b.move offset 0) ∧
    (¬ (p.pos.left + offset ≥ 0 ∧ p.pos.right + offset ≤ width) →
      (Paddle.slide width offset p).pos = p.pos) := by
  constructor
  · rw [Paddle.slide_ball, hb]; rfl
  · intro hc
    rw [Paddle.slide_pos, if_neg hc]

/-- C9 witness: an offset that would push the paddle past the left wall
leaves the paddle in place but still moves the attached ball. -/
theorem paddle_slide_ball_spec_witness :
    (Paddle.slide 600 (-10) (Paddle.mk ⟨0, 321, 80, 331⟩ (some (Ball.init 40 310)))).ball
      = some ((Ball.init 40 310).move (-10) 0) ∧
    (Paddle.slide 600 (-10) (Paddle.mk ⟨0, 321, 80, 331⟩ (some (Ball.init 40 310)))).pos
      = (Paddle.mk ⟨0, 321, 80, 331⟩ (some (Ball.init 40 310))).pos := by
  have h := paddle_slide_ball_spec 600 (-10)
    (Paddle.mk ⟨0, 321, 80, 331⟩ (some (Ball.init 40 310))) (Ball.init 40 310) rfl
  exact ⟨h.1, h.2 (by norm_num)⟩

/-- C10: constructing a `Brick` with a hit count outside `{1, 2, 3}`
raises `KeyError`; `Brick.hit` raises `KeyError` exactly when the
decremented count is neither zero nor in `{1, 2, 3}`; for counts in
`{1, 2, 3}` both operations succeed. -/
theorem brick_keyerror_spec :
    (∀ x y hits, (Brick.init x y hits).isSome ↔ (hits = 1 ∨ hits = 2 ∨ hits = 3)) ∧
    (∀ b : Brick, b.hits - 1 ≠ 0 → b.hits - 1 ≠ 1 → b.hits - 1 ≠ 2 → b.hits - 1 ≠ 3 →
      b.hit = none) ∧
    (∀ b : Brick, b.hits = 1 ∨ b.hits = 2 ∨ b.hits = 3 → (b.hit).isSome) := by
  refine ⟨?_, ?_, ?_⟩
  · intro x y hits
    simp only [Brick.init, COLORS]
    split_ifs <;> simp_all
  · intro b h0 h1 h2 h3
    simp [Brick.hit, COLORS, h0, h1, h2, h3]
  · intro b hv
    obtain ⟨b', hb', _⟩ := Brick.hit_valid b hv
    simp [hb']

/-- C10 witness: a brick built with 7 hit points fails, hitting a brick
holding 5 hit points fails, and hitting a valid 3-hit brick succeeds. -/
theorem brick_keyerror_spec_witness :
    ¬ (Brick.init 100 50 7).isSome ∧
    (Brick.mk ⟨100, 40, 175, 60⟩ 5 "#222222" false).hit = none ∧
    ((Brick.mk ⟨100, 40, 175, 60⟩ 3 "#222222" false).hit).isSome := by
  refine ⟨?_, ?_, ?_⟩
  · intro h
    exact absurd (brick_keyerror_spec.1 100 50 7 |>.mp h) (by decide)
  · exact brick_keyerror_spec.2.1 _ (by decide) (by decide) (by decide) (by decide)
  · exact brick_keyerror_spec.2.2 _ (Or.inr (Or.inr rfl))

/-- `collideDirection` keeps both direction components in `{-1, 1}`. -/
theorem collideDirection_dirOK (pos : Coords) (d : Int × Int) (objs : List GameObj)
    (hd : dirOK d) : dirOK (collideDirection pos d objs) := by
  obtain ⟨h1, h2⟩ := hd
  unfold collideDirection
  dsimp only
  split
  · exact ⟨h1, by omega⟩
  · split
    · split_ifs
      · exact ⟨Or.inl rfl, h2⟩
      · exact ⟨Or.inr rfl, h2⟩
      · exact ⟨h1, by omega⟩
    · exact ⟨h1, h2⟩

/-- `Ball.update` keeps both direction components in `{-1, 1}`. -/
theorem ball_update_dirOK (width : ℚ) (b b' : Ball)
    (h : Ball.update width b = some b') (hd : dirOK b.direction) :
    dirOK b'.direction := by
  obtain ⟨h1, h2⟩ := hd
  unfold Ball.update at h
  cases hs : b.speed with
  | none => rw [hs] at h; cases h
  | some s =>
    rw [hs] at h
    simp only [Option.some.injEq] at h
    subst h
    constructor
    · dsimp only [Ball.move]
      split_ifs <;> omega
    · dsimp only [Ball.move]
      split_ifs <;> omega

/-- `hitAll` succeeds on a list whose bricks all hold valid hit counts:
every brick is hit exactly once, every other object passes through. -/
theorem hitAll_valid (l : List GameObj)
    (hv : ∀ br, GameObj.brickObj br ∈ l → br.hits = 1 ∨ br.hits = 2 ∨ br.hits = 3) :
    ∃ l', hitAll l = some l' ∧
      List.Forall₂ (fun o o' =>
        (∀ p, o = GameObj.paddleObj p → o' = GameObj.paddleObj p) ∧
        (∀ br, o = GameObj.brickObj br →
          ∃ br', o' = GameObj.brickObj br' ∧ br'.hits = br.hits - 1)) l l' := by
  induction l with
  | nil => exact ⟨[], rfl, List.Forall₂.nil⟩
  | cons o rest ih =>
    obtain ⟨rest', hrest, hR⟩ := ih fun br hm => hv br (List.mem_cons_of_mem o hm)
    cases o with
    | paddleObj p =>
      refine ⟨GameObj.paddleObj p :: rest', ?_, ?_⟩
      · simp [hitAll, GameObj.hitIfBrick, hrest]
      · exact List.Forall₂.cons ⟨fun q hq => hq, fun br hbr => nomatch hbr⟩ hR
    | brickObj br =>
      obtain ⟨br', hbr', hhits⟩ := Brick.hit_valid br (hv br (List.mem_cons_self _ _))
      refine ⟨GameObj.brickObj br' :: rest', ?_, ?_⟩
      · simp [hitAll, GameObj.hitIfBrick, hbr', hrest]
      · refine List.Forall₂.cons ⟨fun q hq => (nomatch hq), fun b2 hb2 => ?_⟩ hR
        injection hb2 with hb2
        subst hb2
        exact ⟨br', rfl, hhits⟩

/-- C8: both components of a ball's direction vector are always in
`{-1, +1}`: the direction starts as `[1, -1]`, and both `Ball.update`
and `Ball.collide` preserve the invariant (they only negate a component
or set the x component to `+1` or `-1`). -/
theorem ball_direction_invariant :
    (∀ x y, dirOK (Ball.init x y).direction) ∧
    (∀ width b b', Ball.update width b = some b' →
      dirOK b.direction → dirOK b'.direction) ∧
    (∀ b objs b' objs', Ball.collide b objs = some (b', objs') →
      dirOK b.direction → dirOK b'.direction) := by
  refine ⟨?_, ?_, ?_⟩
  · intro x y
    exact ⟨Or.inl rfl, Or.inr rfl⟩
  · intro width b b' h hd
    exact ball_update_dirOK width b b' h hd
  · intro b objs b' objs' h hd
    unfold Ball.collide at h
    obtain ⟨l, _, hf⟩ := Option.map_eq_some'.mp h
    have hb' : ({ b with direction := collideDirection b.pos b.direction objs } : Ball) = b' :=
      congrArg Prod.fst hf
    rw [← hb']
    exact collideDirection_dirOK b.pos b.direction objs hd

/-- C8 witness: the invariant theorem applied to a concrete mid-screen
update step. -/
theorem ball_direction_invariant_witness :
    dirOK (Ball.mk 10 (1, -1) (some 10) ⟨300, 180, 320, 200⟩).direction :=
  ball_direction_invariant.2.1 600 (Ball.init 300 200)
    (Ball.mk 10 (1, -1) (some 10) ⟨300, 180, 320, 200⟩)
    (by norm_num [Ball.update, Ball.init, Ball.move, Coords.move])
    ⟨Or.inl rfl, Or.inr rfl⟩

/-- C1: `Ball.collide` on a non-empty object list: with more than one
object the y direction is negated; with exactly one object the x
direction is set to `+1` past the object's right edge, to `-1` past its
left edge, and the y direction is negated otherwise; and every brick in
the list is hit exactly once. -/
theorem ball_collide_spec (b : Ball) (objs : List GameObj)
    (hne : objs ≠ [])
    (hwf : ∀ o ∈ objs, o.get_position.left ≤ o.get_position.right)
    (hv : ∀ br, GameObj.brickObj br ∈ objs → br.hits = 1 ∨ br.hits = 2 ∨ br.hits = 3) :
    ∃ b' objs', b.collide objs = some (b', objs') ∧
      (1 < objs.length → b'.direction = (b.direction.1, -b.direction.2)) ∧
      (∀ o, objs = [o] →
        ((b.pos.left + b.pos.right) * (1 / 2) > o.get_position.right →
          b'.direction = (1, b.direction.2)) ∧
        ((b.pos.left + b.pos.right) * (1 / 2) < o.get_position.left →
          b'.direction = (-1, b.direction.2)) ∧
        (¬ (b.pos.left + b.pos.right) * (1 / 2) > o.get_position.right →
         ¬ (b.pos.left + b.pos.right) * (1 / 2) < o.get_position.left →
          b'.direction = (b.direction.1, -b.direction.2))) ∧
      List.Forall₂ (fun o o' =>
        (∀ p, o = GameObj.paddleObj p → o' = GameObj.paddleObj p) ∧
        (∀ br, o = GameObj.brickObj br →
          ∃ br', o' = GameObj.brickObj br' ∧ br'.hits = br.hits - 1)) objs objs' := by
  obtain ⟨objs', hobjs, hR⟩ := hitAll_valid objs hv
  refine ⟨{ b with direction := collideDirection b.pos b.direction objs }, objs',
    ?_, ?_, ?_, hR⟩
  · simp [Ball.collide, hobjs]
  · intro hlen
    unfold collideDirection
    dsimp only
    rw [if_pos hlen]
  · intro o ho
    subst ho
    have hx : ¬ 1 < [o].length := by simp
    refine ⟨?_, ?_, ?_⟩
    · intro h1
      unfold collideDirection
      dsimp only
      rw [if_neg hx, if_pos h1]
    · intro h1
      unfold collideDirection
      dsimp only
      have hlr := hwf o (by simp)
      have h2 : ¬ (b.pos.left + b.pos.right) * (1 / 2) > o.get_position.right := by
        simp only [gt_iff_lt, not_lt]
        linarith
      rw [if_neg hx, if_neg h2, if_pos h1]
    · intro h1 h2
      unfold collideDirection
      dsimp only
      rw [if_neg hx, if_neg h1, if_neg h2]

/-- C1 witness: a ball centered over a single two-hit brick: the y
direction flips and the brick loses one hit point. -/
theorem ball_collide_spec_witness :
    ∃ b' objs', ballTick.collide [GameObj.brickObj brickMid] = some (b', objs') ∧
      (1 < [GameObj.brickObj brickMid].length →
        b'.direction = (ballTick.direction.1, -ballTick.direction.2)) ∧
      (∀ o, [GameObj.brickObj brickMid] = [o] →
        ((ballTick.pos.left + ballTick.pos.right) * (1 / 2) > o.get_position.right →
          b'.direction = (1, ballTick.direction.2)) ∧
        ((ballTick.pos.left + ballTick.pos.right) * (1 / 2) < o.get_position.left →
          b'.direction = (-1, ballTick.direction.2)) ∧
        (¬ (ballTick.pos.left + ballTick.pos.right) * (1 / 2) > o.get_position.right →
         ¬ (ballTick.pos.left + ballTick.pos.right) * (1 / 2) < o.get_position.left →
          b'.direction = (ballTick.direction.1, -ballTick.direction.2))) ∧
      List.Forall₂ (fun o o' =>
        (∀ p, o = GameObj.paddleObj p → o' = GameObj.paddleObj p) ∧
        (∀ br, o = GameObj.brickObj br →
          ∃ br', o' = GameObj.brickObj br' ∧ br'.hits = br.hits - 1))
        [GameObj.brickObj brickMid] objs' :=
  ball_collide_spec ballTick [GameObj.brickObj brickMid]
    (by decide)
    (by
      intro o ho
      rw [List.mem_singleton] at ho
      subst ho
      decide)
    (by
      intro br hm
      rw [List.mem_singleton] at hm
      injection hm with hm
      subst hm
      exact Or.inr (Or.inl rfl))

/-- `check_collisions` only changes the ball's direction and the bricks:
lives, canvas size, paddle, ball position and ball speed are unchanged. -/
theorem check_collisions_fields (g g₁ : GameState)
    (h : g.check_collisions = some g₁) :
    g₁.lives = g.lives ∧ g₁.width = g.width ∧ g₁.height = g.height ∧
    g₁.paddle = g.paddle ∧ g₁.ball.pos = g.ball.pos ∧ g₁.ball.speed = g.ball.speed := by
  unfold GameState.check_collisions at h
  obtain ⟨bs, _, hf⟩ := Option.map_eq_some'.mp h
  rw [← hf]
  exact ⟨rfl, rfl, rfl, rfl, rfl, rfl⟩

/-- C5: when no canvas item tagged `'brick'` remains after collisions,
the tick sets the ball's speed to `None`, draws `'You win!'` and does
not re-schedule the loop — regardless of whether the ball is also lost
(the win check precedes the lost-ball check). -/
theorem game_loop_win_spec (g g₁ : GameState)
    (hc : g.check_collisions = some g₁)
    (hw : g₁.liveBricks.length = 0) :
    g.game_loop = some ({ g₁ with ball := { g₁.ball with speed := none } },
                        { texts := ["You win!"], scheduled := none }) := by
  unfold GameState.game_loop
  rw [hc, Option.some_bind]
  dsimp only
  rw [if_pos hw]

/-- C5 witness: a state with no bricks and a ball that is also below the
canvas still ends in the win branch. -/
theorem game_loop_win_spec_witness :
    gWin.ball.pos.bottom ≥ gWin.height ∧
    gWin.game_loop = some ({ gWin with ball := { gWin.ball with speed := none } },
                           { texts := ["You win!"], scheduled := none }) :=
  ⟨by decide, game_loop_win_spec gWin gWin rfl rfl⟩

/-- C4: when bricks remain and the ball's bottom edge has reached the
canvas height, the tick decrements the lives by exactly one and does not
re-schedule; with no lives left it sets the ball's speed to `None` and
draws `'Game Over'`, otherwise a fresh ball is set up attached to the
paddle; the game starts with 3 lives. -/
theorem game_loop_lost_spec (g g₁ : GameState)
    (hc : g.check_collisions = some g₁)
    (hw : g₁.liveBricks.length ≠ 0)
    (hl : g₁.ball.pos.bottom ≥ g₁.height) :
    (∀ g0, GameState.init = some g0 → g0.lives = 3) ∧
    ∃ st eff, g.game_loop = some (st, eff) ∧
      st.lives = g.lives - 1 ∧
      eff.scheduled = none ∧
      (g.lives - 1 ≤ 0 → st.ball.speed = none ∧ eff.texts = ["Game Over"]) ∧
      (0 < g.lives - 1 →
        st.paddle.ball = some st.ball ∧
        st.ball = Ball.init ((g.paddle.pos.left + g.paddle.pos.right) * (1 / 2)) 310 ∧
        eff.texts = ["Press Space to start"]) := by
  obtain ⟨hlv, hwd, hht, hpd, hbp, hbs⟩ := check_collisions_fields g g₁ hc
  constructor
  · intro g0 h
    unfold GameState.init at h
    obtain ⟨bricks, _, hf⟩ := Option.map_eq_some'.mp h
    rw [← hf]
    rfl
  · unfold GameState.game_loop
    rw [hc, Option.some_bind]
    dsimp only
    rw [if_neg hw, if_pos hl]
    by_cases hlife : g₁.lives - 1 ≤ 0
    · rw [if_pos hlife]
      refine ⟨_, _, rfl, ?_, rfl, fun _ => ⟨rfl, rfl⟩, ?_⟩
      · dsimp only
        rw [hlv]
      · intro hpos
        rw [hlv] at hlife
        omega
    · rw [if_neg hlife]
      refine ⟨_, _, rfl, ?_, rfl, ?_, ?_⟩
      · dsimp only [GameState.setup_game, GameState.add_ball]
        rw [hlv]
      · intro hle
        rw [hlv] at hlife
        omega
      · intro _
        refine ⟨rfl, ?_, rfl⟩
        dsimp only [GameState.setup_game, GameState.add_ball]
        rw [hpd]

/-- C4 witness: a lost ball with three lives left leads to a fresh ball
attached to the paddle. -/
theorem game_loop_lost_spec_witness :
    (∀ g0, GameState.init = some g0 → g0.lives = 3) ∧
    ∃ st eff, gLost.game_loop = some (st, eff) ∧
      st.lives = gLost.lives - 1 ∧
      eff.scheduled = none ∧
      (gLost.lives - 1 ≤ 0 → st.ball.speed = none ∧ eff.texts = ["Game Over"]) ∧
      (0 < gLost.lives - 1 →
        st.paddle.ball = some st.ball ∧
        st.ball = Ball.init ((gLost.paddle.pos.left + gLost.paddle.pos.right) * (1 / 2)) 310 ∧
        eff.texts = ["Press Space to start"]) :=
  game_loop_lost_spec gLost gLost rfl (by decide) (by decide)

/-- C6: a tick first resolves collisions, and it updates the ball's
position and re-schedules itself with a fixed 50 ms delay exactly when
neither the win condition nor the lost-ball condition holds on the
post-collision state. -/
theorem game_loop_tick_spec (g g₁ : GameState)
    (hc : g.check_collisions = some g₁) :
    (∀ st eff, g.game_loop = some (st, eff) →
      (eff.scheduled = some 50 ↔
        g₁.liveBricks.length ≠ 0 ∧ ¬ g₁.ball.pos.bottom ≥ g₁.height)) ∧
    (g₁.liveBricks.length ≠ 0 → ¬ g₁.ball.pos.bottom ≥ g₁.height →
      g.game_loop = (g₁.ball.update g₁.width).map fun ball =>
        ({ g₁ with ball := ball }, { texts := [], scheduled := some 50 })) := by
  constructor
  · intro st eff hloop
    unfold GameState.game_loop at hloop
    rw [hc, Option.some_bind] at hloop
    dsimp only at hloop
    by_cases hw : g₁.liveBricks.length = 0
    · rw [if_pos hw] at hloop
      have heff : ({ texts := ["You win!"], scheduled := none } : TickEffects) = eff :=
        congrArg Prod.snd (Option.some.inj hloop)
      rw [← heff]
      simp [hw]
    · rw [if_neg hw] at hloop
      by_cases hl : g₁.ball.pos.bottom ≥ g₁.height
      · rw [if_pos hl] at hloop
        by_cases hlife : g₁.lives - 1 ≤ 0
        · rw [if_pos hlife] at hloop
          have heff : ({ texts := ["Game Over"], scheduled := none } : TickEffects) = eff :=
            congrArg Prod.snd (Option.some.inj hloop)
          rw [← heff]
          simp [hl]
        · rw [if_neg hlife] at hloop
          have heff : ({ texts := ["Press Space to start"], scheduled := none } : TickEffects)
              = eff :=
            congrArg Prod.snd (Option.some.inj hloop)
          rw [← heff]
          simp [hl]
      · rw [if_neg hl] at hloop
        obtain ⟨ball, _, hf⟩ := Option.map_eq_some'.mp hloop
        have heff : ({ texts := [], scheduled := some 50 } : TickEffects) = eff :=
          congrArg Prod.snd hf
        rw [← heff]
        simp [hw, hl]
  · intro hw hl
    unfold GameState.game_loop
    rw [hc, Option.some_bind]
    dsimp only
    rw [if_neg hw, if_neg hl]

/-- C6 witness: a mid-air tick updates the ball and re-schedules the
loop with a 50 ms delay. -/
theorem game_loop_tick_spec_witness :
    gTick.game_loop = (gTick.ball.update gTick.width).map fun ball =>
      ({ gTick with ball := ball }, { texts := [], scheduled := some 50 }) :=
  (game_loop_tick_spec gTick gTick rfl).2 (by decide) (by decide)

end Breakout
